import Mathlib

/-
  Verification of the Genius API client in src/apputil.py.

  The client is a thin wrapper over HTTP GET requests returning JSON.  We
  embed JSON values as an inductive type, Python exceptions as an error
  type, and the network as an oracle assigning to each attempt index the
  outcome of the corresponding HTTP request (a raised network error, or a
  response with a status code and an optionally parseable JSON body).
  Python functions that may raise become functions into Except.
-/

namespace GeniusClient

/-- JSON values, as produced by resp.json() in the Python code. -/
inductive JValue where
  | null
  | bool (b : Bool)
  | num (n : Int)
  | str (s : String)
  | arr (xs : List JValue)
  | obj (kvs : List (String × JValue))


/-- Python exceptions raised or caught by the code under src/apputil.py.
    runtimeError carries the optional cause set by a raise-from clause. -/
inductive PyExc where
  | valueError (msg : String)
  | runtimeError (msg : String) (cause : Option PyExc)
  | attributeError
  | typeError
  | indexError
  | keyError
  | netError
  | httpError (status : Nat)
  | jsonError


/-- Python x is None on a JSON value: true exactly for the null value. -/
def isNull : JValue → Bool
  | .null => true
  | _ => false

/-- Python truthiness for the JSON values the code tests with if-not. -/
def truthy : JValue → Bool
  | .null => false
  | .bool b => b
  | .num n => n != 0
  | .str s => s != ""
  | .arr xs => !xs.isEmpty
  | .obj kvs => !kvs.isEmpty

/-- Python x or y on JSON values: yields x when x is truthy, else y. -/
def pyOr (x y : JValue) : JValue := if truthy x then x else y

/-- Python dict.get(key, default): AttributeError when the receiver is not
    a dict, else the stored value (first binding) or the default. -/
def dictGet (v : JValue) (key : String) (default : JValue) : Except PyExc JValue :=
  match v with
  | .obj kvs => .ok ((kvs.lookup key).getD default)
  | _ => .error .attributeError

/-- Python v[0] on a JSON value, as used on the hits list. -/
def index0 (v : JValue) : Except PyExc JValue :=
  match v with
  | .arr (x :: _) => .ok x
  | .arr [] => .error .indexError
  | .str s => if s = "" then .error .indexError else .ok (.str (String.mk [s.toList.headD ' ']))
  | .obj _ => .error .keyError
  | _ => .error .typeError

/-- Outcome of one call to requests.get: either the call raises (network
    failure), or it yields a response with a status code and a body that
    either parses as JSON (some j) or is malformed (none). -/
inductive HttpAttempt where
  | netError
  | response (status : Nat) (body : Option JValue)

/-- What one run of Genius._get produced: its return value or raised
    exception, the number of HTTP requests it made, and the sequence of
    delays it passed to time.sleep, in order. -/
structure GetOutcome where
  result : Except PyExc JValue
  calls : Nat
  sleeps : List ℚ


/-- Message of the RuntimeError raised by Genius._get after exhausting its
    retries.  The Python message also interpolates the url and params; the
    transport model abstracts those away. -/
def getFailMsg : String := "Genius GET failed"

/-- The loop body of Genius._get: remaining iterations of the for loop,
    current attempt index, and the current value of last_exc.  Each
    iteration consumes oracle attempt.  Status 429 sleeps and continues
    WITHOUT touching last_exc; raise_for_status (status in 400..599),
    a network error, and a JSON parse failure are caught, recorded in
    last_exc, and followed by a sleep; a parseable body on a non-error
    status is returned.  When the iterations run out, a RuntimeError
    chaining last_exc is raised. -/
def getLoop (oracle : Nat → HttpAttempt) (backoff : ℚ) :
    Nat → Nat → Option PyExc → GetOutcome
  | 0, _, last => ⟨.error (.runtimeError getFailMsg last), 0, []⟩
  | remaining + 1, attempt, last =>
    let delay := backoff * ((attempt + 1 : Nat) : ℚ)
    match oracle attempt with
    | .netError =>
      let o := getLoop oracle backoff remaining (attempt + 1) (some .netError)
      ⟨o.result, o.calls + 1, delay :: o.sleeps⟩
    | .response status body =>
      if status = 429 then
        let o := getLoop oracle backoff remaining (attempt + 1) last
        ⟨o.result, o.calls + 1, delay :: o.sleeps⟩
      else if 400 ≤ status ∧ status < 600 then
        let o := getLoop oracle backoff remaining (attempt + 1) (some (.httpError status))
        ⟨o.result, o.calls + 1, delay :: o.sleeps⟩
      else
        match body with
        | none =>
          let o := getLoop oracle backoff remaining (attempt + 1) (some .jsonError)
          ⟨o.result, o.calls + 1, delay :: o.sleeps⟩
        | some j => ⟨.ok j, 1, []⟩

/-- Genius._get(path, params, retries, backoff).  The url and params only
    determine which responses come back, so they are absorbed into the
    oracle; the loop runs retries + 1 attempts starting from attempt 0
    with last_exc = None. -/
def «_get» (oracle : Nat → HttpAttempt) (retries : Nat) (backoff : ℚ) : GetOutcome :=
  getLoop oracle backoff (retries + 1) 0 none

/-- Default values of the retries and backoff keyword parameters of
    Genius._get; every caller in the code uses them. -/
def defaultRetries : Nat := 2

def defaultBackoff : ℚ := 8 / 10

/-- Genius._search_hits: calls _get on the search endpoint and unwraps
    data.get(response, dict).get(hits, list). -/
def «_search_hits» (searchOracle : Nat → HttpAttempt) : Except PyExc JValue := do
  let data ← («_get» searchOracle defaultRetries defaultBackoff).result
  let resp ← dictGet data "response" (.obj [])
  dictGet resp "hits" (.arr [])

/-- Message of the ValueError raised by get_artist when the search returns
    zero hits. -/
def noHitsMsg (search_term : String) : String :=
  "No Genius search hits for " ++ search_term

/-- Message of the ValueError raised by get_artist when the first hit has
    no primary_artist id. -/
def noIdMsg (search_term : String) : String :=
  "No primary_artist id found for search term " ++ search_term

/-- Message of the RuntimeError raised by get_artist when the artist
    payload is falsy. -/
def noPayloadMsg : String := "Genius returned no artist payload"

/-- Genius.get_artist(search_term).  searchOracle drives the /search GET;
    artistOracle id drives the /artists/id GET issued with the extracted
    primary-artist id.  Returns the artist JSON dictionary. -/
def get_artist (searchOracle : Nat → HttpAttempt)
    (artistOracle : JValue → Nat → HttpAttempt) (search_term : String) :
    Except PyExc JValue := do
  let hits ← «_search_hits» searchOracle
  if truthy hits = false then
    throw (.valueError (noHitsMsg search_term))
  let first ← index0 hits
  let result0 ← dictGet first "result" (.obj [])
  let result := pyOr result0 (.obj [])
  let pa0 ← dictGet result "primary_artist" (.obj [])
  let primary_artist := pyOr pa0 (.obj [])
  let artist_id ← dictGet primary_artist "id" .null
  if isNull artist_id then
    throw (.valueError (noIdMsg search_term))
  let artist_resp ← («_get» (artistOracle artist_id) defaultRetries defaultBackoff).result
  let resp2 ← dictGet artist_resp "response" (.obj [])
  let artist ← dictGet resp2 "artist" (.obj [])
  if truthy artist = false then
    throw (.runtimeError noPayloadMsg none)
  return artist

/-- One row of the DataFrame built by Genius.get_artists: the dict literal
    with keys search_term, artist_name, artist_id, followers_count. -/
structure ResultRow where
  search_term : String
  artist_name : JValue
  artist_id : JValue
  followers_count : JValue


/-- The row appended for a term whose get_artist call raised. -/
def nullRow (term : String) : ResultRow := ⟨term, .null, .null, .null⟩

/-- The body of the per-term loop of get_artists: on success, extract the
    three fields with artist.get (an AttributeError from a non-dict artist
    is caught like any other exception); on any exception, the null row. -/
def rowOf (term : String) (res : Except PyExc JValue) : ResultRow :=
  match res with
  | .error _ => nullRow term
  | .ok artist =>
    match dictGet artist "name" .null, dictGet artist "id" .null,
        dictGet artist "followers_count" .null with
    | .ok n, .ok i, .ok f => ⟨term, n, i, f⟩
    | _, _, _ => nullRow term

/-- The network environment of a batch call: for each search term, the
    oracle of its /search GET and the oracle family of its /artists GET. -/
def World : Type :=
  String → (Nat → HttpAttempt) × (JValue → Nat → HttpAttempt)

/-- Genius.get_artists(search_terms): one row per term, in order; the
    pd.DataFrame wrapper is represented by the row list together with the
    fixed column list dfColumns below. -/
def get_artists (world : World) (terms : List String) : List ResultRow :=
  terms.map fun term => rowOf term (get_artist (world term).1 (world term).2 term)

/-- The columns of the DataFrame built from the row dicts of get_artists,
    in key-insertion order. -/
def dfColumns : List String :=
  ["search_term", "artist_name", "artist_id", "followers_count"]

/-- State built by Genius.init: the stored token and the prebuilt headers
    dict. -/
structure GeniusState where
  access_token : String
  headers : List (String × String)


/-- Message of the ValueError raised by Genius.init when no token
    resolves. -/
def noTokenMsg : String :=
  "No Genius access token provided. Pass access_token=... or set ACCESS_TOKEN in environment."

/-- Genius.init(access_token, use_env_fallback) with the environment
    variable ACCESS_TOKEN passed explicitly (none = unset).  A missing or
    empty (falsy) token raises ValueError; otherwise the token is stored
    and the Authorization header precomputed. -/
def Genius_init (access_token : Option String) (use_env_fallback : Bool)
    (env_ACCESS_TOKEN : Option String) : Except PyExc GeniusState :=
  let access_token :=
    if access_token = none ∧ use_env_fallback then env_ACCESS_TOKEN else access_token
  match access_token with
  | none => .error (.valueError noTokenMsg)
  | some tok =>
    if tok = "" then .error (.valueError noTokenMsg)
    else .ok ⟨tok, [("Authorization", "Bearer " ++ tok)]⟩

/-
  Concrete response shapes (from the outbound-interface shapes in the
  spec, section 6) used to instantiate theorems and witnesses.
-/

/-- The JSON shape of a /search response carrying the given hits. -/
def searchResponse (hits : List JValue) : JValue :=
  .obj [("response", .obj [("hits", .arr hits)])]

/-- A well-formed search hit whose primary artist carries the given id. -/
def hitWithId (artistId : JValue) : JValue :=
  .obj [("result", .obj [("primary_artist", .obj [("id", artistId)])])]

/-- The JSON shape of an /artists response with the given artist object. -/
def artistResponse (artist : JValue) : JValue :=
  .obj [("response", .obj [("artist", artist)])]

/-- An oracle whose every attempt answers 200 with the given body. -/
def okAttempt (j : JValue) : Nat → HttpAttempt := fun _ => .response 200 (some j)

/-- A world in which, for every term, the search returns one well-formed
    hit with artist id aid and the artist endpoint returns the object a. -/
def simpleWorld (aid : JValue) (a : JValue) : World := fun _ =>
  (okAttempt (searchResponse [hitWithId aid]), fun _ => okAttempt (artistResponse a))

/-- A world in which every search returns zero hits. -/
def zeroHitsWorld : World := fun _ =>
  (okAttempt (searchResponse []), fun _ => okAttempt (artistResponse (.obj [])))

/-- An oracle whose every attempt answers with the given status and no
    parseable body. -/
def statusAttempt (status : Nat) : Nat → HttpAttempt := fun _ => .response status none

/-
  Helper lemmas about the retry loop.
-/

/-- The loop makes at most remaining requests, and its result is either a
    parsed JSON body or the RuntimeError raised after the loop. -/
lemma getLoop_calls_le_result_shape (oracle : Nat → HttpAttempt) (backoff : ℚ) :
    ∀ remaining attempt last,
      (getLoop oracle backoff remaining attempt last).calls ≤ remaining ∧
      ((∃ j, (getLoop oracle backoff remaining attempt last).result = .ok j) ∨
        ∃ c, (getLoop oracle backoff remaining attempt last).result
          = .error (.runtimeError getFailMsg c)) := by
  intro remaining
  induction remaining with
  | zero =>
    intro attempt last
    exact ⟨le_refl 0, Or.inr ⟨last, rfl⟩⟩
  | succ r ih =>
    intro attempt last
    simp only [getLoop]
    cases horacle : oracle attempt with
    | netError =>
      have h := ih (attempt + 1) (some .netError)
      exact ⟨by simpa using Nat.add_le_add_right h.1 1, h.2⟩
    | response status body =>
      by_cases h429 : status = 429
      · simp only [if_pos h429]
        have h := ih (attempt + 1) last
        exact ⟨by simpa using Nat.add_le_add_right h.1 1, h.2⟩
      · simp only [if_neg h429]
        by_cases herr : 400 ≤ status ∧ status < 600
        · simp only [if_pos herr]
          have h := ih (attempt + 1) (some (.httpError status))
          exact ⟨by simpa using Nat.add_le_add_right h.1 1, h.2⟩
        · simp only [if_neg herr]
          cases body with
          | none =>
            have h := ih (attempt + 1) (some .jsonError)
            exact ⟨by simpa using Nat.add_le_add_right h.1 1, h.2⟩
          | some j =>
            exact ⟨by simp, Or.inl ⟨j, rfl⟩⟩

/-- When every attempt is rate-limited, the loop exhausts all remaining
    iterations, never assigns last_exc, sleeps after every attempt with a
    growing delay, and raises with whatever last_exc it entered with. -/
lemma getLoop_all429 (oracle : Nat → HttpAttempt) (backoff : ℚ)
    (h : ∀ i, ∃ b, oracle i = .response 429 b) :
    ∀ remaining attempt last,
      getLoop oracle backoff remaining attempt last =
        ⟨.error (.runtimeError getFailMsg last), remaining,
          (List.range remaining).map fun i => backoff * ((attempt + i + 1 : Nat) : ℚ)⟩ := by
  intro remaining
  induction remaining with
  | zero =>
    intro attempt last
    simp [getLoop]
  | succ r ih =>
    intro attempt last
    obtain ⟨b, hb⟩ := h attempt
    simp only [getLoop, hb, if_true]
    rw [ih (attempt + 1) last]
    simp only [GetOutcome.mk.injEq, true_and]
    rw [List.range_succ_eq_map, List.map_cons, List.map_map]
    refine congrArg₂ _ (congrArg (fun n : Nat => backoff * (n : ℚ)) (by omega))
      (List.map_congr_left fun i _ => congrArg (fun n : Nat => backoff * (n : ℚ)) (by omega))

/-
  Claim theorems.
-/

/-- Claim C9: if every attempt of a GET call returns HTTP 429, _get still
    exhausts the retry budget, performing retries + 1 requests, and raises
    its RuntimeError with no underlying cause (None), because 429
    responses are never recorded in last_exc, unlike every other failure
    kind. -/
theorem get_all_429_raises_without_cause (oracle : Nat → HttpAttempt)
    (retries : Nat) (backoff : ℚ)
    (h : ∀ i, ∃ b, oracle i = .response 429 b) :
    («_get» oracle retries backoff).result
        = .error (.runtimeError getFailMsg none) ∧
    («_get» oracle retries backoff).calls = retries + 1 := by
  rw [«_get», getLoop_all429 oracle backoff h (retries + 1) 0 none]
  exact ⟨rfl, rfl⟩

theorem get_all_429_raises_without_cause_witness :
    («_get» (statusAttempt 429) 2 defaultBackoff).result
        = .error (.runtimeError getFailMsg none) ∧
    («_get» (statusAttempt 429) 2 defaultBackoff).calls = 2 + 1 :=
  get_all_429_raises_without_cause (statusAttempt 429) 2 defaultBackoff
    fun _ => ⟨none, rfl⟩

/-- Claim C10: _get always terminates (it is a total function of its
    attempt oracle), performs at most retries + 1 HTTP requests — at most
    3 with the default budget of 2 retries — and either returns a parsed
    JSON body or raises an error. -/
theorem get_bounded_attempts (oracle : Nat → HttpAttempt)
    (retries : Nat) (backoff : ℚ) :
    («_get» oracle retries backoff).calls ≤ retries + 1 ∧
    («_get» oracle defaultRetries backoff).calls ≤ 3 ∧
    ((∃ j, («_get» oracle retries backoff).result = .ok j) ∨
      ∃ e, («_get» oracle retries backoff).result = .error e) := by
  obtain ⟨h1, h2⟩ := getLoop_calls_le_result_shape oracle backoff (retries + 1) 0 none
  obtain ⟨h3, -⟩ := getLoop_calls_le_result_shape oracle backoff (defaultRetries + 1) 0 none
  refine ⟨h1, h3, ?_⟩
  rcases h2 with ⟨j, hj⟩ | ⟨c, hc⟩
  · exact Or.inl ⟨j, hj⟩
  · exact Or.inr ⟨_, hc⟩

/-- Claim C5: when every attempt of a GET answers a 4xx or 5xx status
    other than 429 (such as 500), _get retries through the whole default
    budget (3 requests) and then raises its RuntimeError chaining the
    HTTPError of the last response, and get_artist propagates that very
    error to its caller. -/
theorem get_retry_exhaustion_http_error (oracle : Nat → HttpAttempt)
    (st : Nat → Nat) (bd : Nat → Option JValue)
    (hresp : ∀ i, i ≤ 2 → oracle i = .response (st i) (bd i))
    (hrange : ∀ i, i ≤ 2 → 400 ≤ st i ∧ st i < 600 ∧ st i ≠ 429) :
    («_get» oracle defaultRetries defaultBackoff).result
        = .error (.runtimeError getFailMsg (some (.httpError (st 2)))) ∧
    («_get» oracle defaultRetries defaultBackoff).calls = 3 ∧
    ∀ aO t, get_artist oracle aO t
        = .error (.runtimeError getFailMsg (some (.httpError (st 2)))) := by
  have h0 := hresp 0 (by norm_num)
  have h1 := hresp 1 (by norm_num)
  have h2 := hresp 2 (by norm_num)
  have n0 : ¬(st 0 = 429) := (hrange 0 (by norm_num)).2.2
  have n1 : ¬(st 1 = 429) := (hrange 1 (by norm_num)).2.2
  have n2 : ¬(st 2 = 429) := (hrange 2 (by norm_num)).2.2
  have p0 : 400 ≤ st 0 ∧ st 0 < 600 := ⟨(hrange 0 (by norm_num)).1, (hrange 0 (by norm_num)).2.1⟩
  have p1 : 400 ≤ st 1 ∧ st 1 < 600 := ⟨(hrange 1 (by norm_num)).1, (hrange 1 (by norm_num)).2.1⟩
  have p2 : 400 ≤ st 2 ∧ st 2 < 600 := ⟨(hrange 2 (by norm_num)).1, (hrange 2 (by norm_num)).2.1⟩
  have hr : («_get» oracle defaultRetries defaultBackoff).result
      = .error (.runtimeError getFailMsg (some (.httpError (st 2)))) := by
    simp only [«_get», defaultRetries, getLoop, h0, h1, h2,
      if_neg n0, if_pos p0, if_neg n1, if_pos p1, if_neg n2, if_pos p2]
  have hc : («_get» oracle defaultRetries defaultBackoff).calls = 3 := by
    simp only [«_get», defaultRetries, getLoop, h0, h1, h2,
      if_neg n0, if_pos p0, if_neg n1, if_pos p1, if_neg n2, if_pos p2]
  refine ⟨hr, hc, fun aO t => ?_⟩
  have hsearch : «_search_hits» oracle
      = .error (.runtimeError getFailMsg (some (.httpError (st 2)))) := by
    simp only [«_search_hits», hr]
    rfl
  simp only [get_artist, hsearch]
  rfl

theorem get_retry_exhaustion_http_error_witness :
    («_get» (statusAttempt 500) defaultRetries defaultBackoff).result
        = .error (.runtimeError getFailMsg (some (.httpError 500))) ∧
    («_get» (statusAttempt 500) defaultRetries defaultBackoff).calls = 3 ∧
    ∀ aO t, get_artist (statusAttempt 500) aO t
        = .error (.runtimeError getFailMsg (some (.httpError 500))) :=
  get_retry_exhaustion_http_error (statusAttempt 500) (fun _ => 500) (fun _ => none)
    (fun _ _ => rfl) (fun _ _ => by norm_num)

/-- Claim C6: a GET whose first k attempts are rate-limited with HTTP 429
    and whose next attempt succeeds, within the default retry budget, is
    retried after one backoff sleep per 429 — with strictly increasing
    delays — and ultimately returns the successful body without raising. -/
theorem get_429_then_success (oracle : Nat → HttpAttempt) (k s : Nat) (j : JValue)
    (hk : k ≤ 2)
    (h429 : ∀ i, i < k → ∃ b, oracle i = .response 429 b)
    (hs : oracle k = .response s (some j))
    (hs429 : s ≠ 429)
    (hserr : ¬(400 ≤ s ∧ s < 600)) :
    («_get» oracle defaultRetries defaultBackoff).result = .ok j ∧
    («_get» oracle defaultRetries defaultBackoff).calls = k + 1 ∧
    («_get» oracle defaultRetries defaultBackoff).sleeps
        = (List.range k).map (fun i => defaultBackoff * ((i + 1 : Nat) : ℚ)) ∧
    List.Chain' (fun a b => a < b) ((«_get» oracle defaultRetries defaultBackoff).sleeps) := by
  interval_cases k
  · simp only [«_get», defaultRetries, getLoop, hs, if_neg hs429, if_neg hserr]
    exact ⟨by trivial, by trivial, by simp, by simp⟩
  · obtain ⟨b0, hb0⟩ := h429 0 (by norm_num)
    simp only [«_get», defaultRetries, getLoop, hb0, if_true, hs,
      if_neg hs429, if_neg hserr]
    exact ⟨by trivial, by trivial, by norm_num [List.range_succ], by simp⟩
  · obtain ⟨b0, hb0⟩ := h429 0 (by norm_num)
    obtain ⟨b1, hb1⟩ := h429 1 (by norm_num)
    simp only [«_get», defaultRetries, getLoop, hb0, hb1, if_true, hs,
      if_neg hs429, if_neg hserr]
    exact ⟨by trivial, by trivial, by norm_num [List.range_succ],
      by norm_num [List.chain'_cons, defaultBackoff]⟩

theorem get_429_then_success_witness :
    («_get» (fun i => if i < 2 then .response 429 none else .response 200 (some (.num 7)))
        defaultRetries defaultBackoff).result = .ok (.num 7) ∧
    («_get» (fun i => if i < 2 then .response 429 none else .response 200 (some (.num 7)))
        defaultRetries defaultBackoff).calls = 2 + 1 ∧
    («_get» (fun i => if i < 2 then .response 429 none else .response 200 (some (.num 7)))
        defaultRetries defaultBackoff).sleeps
        = (List.range 2).map (fun i => defaultBackoff * ((i + 1 : Nat) : ℚ)) ∧
    List.Chain' (fun a b => a < b)
      ((«_get» (fun i => if i < 2 then .response 429 none else .response 200 (some (.num 7)))
        defaultRetries defaultBackoff).sleeps) :=
  get_429_then_success
    (fun i => if i < 2 then .response 429 none else .response 200 (some (.num 7)))
    2 200 (.num 7) (by norm_num)
    (fun i hi => ⟨none, by simp [hi]⟩) (by norm_num) (by norm_num) (by norm_num)

/-- The search_term field of a built row is always the input term. -/
lemma rowOf_search_term (term : String) (res : Except PyExc JValue) :
    (rowOf term res).search_term = term := by
  cases res with
  | error e => rfl
  | ok artist => cases artist <;> rfl

/-- Claim C1: get_artists never raises: it is a total function producing
    one row per term, and a term whose get_artist call raises — with any
    error whatsoever, a zero-hit search included — contributes a row whose
    three result fields are None, while every other term still gets its
    own row (the batch never fails as a whole). -/
theorem get_artists_downgrades_errors (world : World) (terms : List String)
    (i : Nat) (term : String) (e : PyExc)
    (hterm : terms[i]? = some term)
    (herr : get_artist (world term).1 (world term).2 term = .error e) :
    (get_artists world terms).length = terms.length ∧
    (get_artists world terms)[i]? = some (nullRow term) := by
  refine ⟨by simp [get_artists], ?_⟩
  simp [get_artists, List.getElem?_map, hterm, rowOf, herr]

theorem get_artists_downgrades_errors_witness :
    (get_artists zeroHitsWorld ["a", "b"]).length = ["a", "b"].length ∧
    (get_artists zeroHitsWorld ["a", "b"])[0]? = some (nullRow "a") :=
  get_artists_downgrades_errors zeroHitsWorld ["a", "b"] 0 "a"
    (.valueError (noHitsMsg "a")) rfl rfl

/-- Claim C2: get_artists builds a table with exactly the four columns
    search_term, artist_name, artist_id, followers_count and exactly one
    row per input term, in input order (row i carries term i), no matter
    what the underlying calls do. -/
theorem get_artists_shape (world : World) (terms : List String) :
    dfColumns = ["search_term", "artist_name", "artist_id", "followers_count"] ∧
    (get_artists world terms).length = terms.length ∧
    ∀ (i : Nat) (term : String), terms[i]? = some term →
      ((get_artists world terms)[i]?).map ResultRow.search_term = some term := by
  refine ⟨rfl, by simp [get_artists], fun i term hterm => ?_⟩
  simp [get_artists, List.getElem?_map, hterm, rowOf_search_term]

theorem get_artists_shape_witness :
    (get_artists (simpleWorld (.num 5) (.obj [("name", .str "X")])) ["a", "b"]).length
        = ["a", "b"].length ∧
    ((get_artists (simpleWorld (.num 5) (.obj [("name", .str "X")])) ["a", "b"])[1]?).map
        ResultRow.search_term = some "b" :=
  ⟨(get_artists_shape (simpleWorld (.num 5) (.obj [("name", .str "X")])) ["a", "b"]).2.1,
    (get_artists_shape (simpleWorld (.num 5) (.obj [("name", .str "X")])) ["a", "b"]).2.2
      1 "b" rfl⟩

/-- Claim C8: get_artist is deterministic: in the embedding it is a pure
    function of the search term and of the responses the two endpoints
    give (the oracles), and it mutates no client state, so two calls made
    with the same term against identical responses yield equal results. -/
theorem get_artist_deterministic (searchOracle : Nat → HttpAttempt)
    (artistOracle : JValue → Nat → HttpAttempt) (search_term : String) :
    get_artist searchOracle artistOracle search_term
      = get_artist searchOracle artistOracle search_term := rfl

/-- Claim C4: constructing with no explicit credential and no environment
    fallback raises ValueError (the ConfigurationError of the spec), and
    a resolvable (nonempty) credential — explicit, or found through the
    environment fallback — makes construction succeed with the Bearer
    authorization header precomputed. -/
theorem init_token_resolution (use_env_fallback : Bool) (env : Option String)
    (tok : String) (htok : tok ≠ "") :
    Genius_init none use_env_fallback none = .error (.valueError noTokenMsg) ∧
    Genius_init (some tok) use_env_fallback env
      = .ok ⟨tok, [("Authorization", "Bearer " ++ tok)]⟩ ∧
    Genius_init none true (some tok)
      = .ok ⟨tok, [("Authorization", "Bearer " ++ tok)]⟩ := by
  refine ⟨?_, ?_, ?_⟩
  · cases use_env_fallback <;> rfl
  · simp [Genius_init, htok]
  · simp [Genius_init, htok]

theorem init_token_resolution_witness :
    Genius_init none true none = .error (.valueError noTokenMsg) ∧
    Genius_init (some "tok123") true none
      = .ok ⟨"tok123", [("Authorization", "Bearer " ++ "tok123")]⟩ ∧
    Genius_init none true (some "tok123")
      = .ok ⟨"tok123", [("Authorization", "Bearer " ++ "tok123")]⟩ :=
  init_token_resolution true none "tok123" (by decide)

/-- Reduction of an Except bind whose first component succeeded. -/
lemma exceptBind_ok {α β : Type} (a : α) (f : α → Except PyExc β) :
    (Except.ok a >>= f) = f a := rfl

/-- Reduction of an Except bind whose first component raised. -/
lemma exceptBind_error {α β : Type} (e : PyExc) (f : α → Except PyExc β) :
    ((Except.error e : Except PyExc α) >>= f) = Except.error e := rfl

/-- An Except pure is an ok value. -/
lemma exceptPure_eq_ok {α : Type} (a : α) : (pure a : Except PyExc α) = Except.ok a := rfl

/-- Reduction of an Except bind whose first component is a throw. -/
lemma exceptThrow_bind {α β : Type} (e : PyExc) (f : α → Except PyExc β) :
    ((throw e : Except PyExc α) >>= f) = Except.error e := rfl

/-- Claim C7: when the search succeeds but the first hit carries no
    primary-artist identifier (the extracted id is None), get_artist
    raises ValueError (the DataShapeError of the spec, strict policy)
    without consulting the artist-detail endpoint: the outcome is the
    same for every artist oracle. -/
theorem get_artist_missing_primary_id_raises (searchOracle : Nat → HttpAttempt)
    (t : String) (hits first result0 pa0 aid : JValue)
    (hhits : «_search_hits» searchOracle = .ok hits)
    (htruthy : truthy hits = true)
    (hfirst : index0 hits = .ok first)
    (hres : dictGet first "result" (.obj []) = .ok result0)
    (hpa : dictGet (pyOr result0 (.obj [])) "primary_artist" (.obj []) = .ok pa0)
    (hid : dictGet (pyOr pa0 (.obj [])) "id" .null = .ok aid)
    (hnull : isNull aid = true) :
    ∀ artistOracle, get_artist searchOracle artistOracle t
      = .error (.valueError (noIdMsg t)) := by
  intro aO
  simp [get_artist, hhits, htruthy, hfirst, hres, hpa, hid, hnull, exceptBind_ok,
    exceptThrow_bind]

theorem get_artist_missing_primary_id_raises_witness :
    get_artist (okAttempt (searchResponse [hitWithId .null]))
        (fun _ => okAttempt (artistResponse (.obj [("name", .str "X")]))) "Beyonce"
      = .error (.valueError (noIdMsg "Beyonce")) :=
  get_artist_missing_primary_id_raises (okAttempt (searchResponse [hitWithId .null]))
    "Beyonce" (.arr [hitWithId .null]) (hitWithId .null)
    (.obj [("primary_artist", .obj [("id", .null)])]) (.obj [("id", .null)]) .null
    rfl rfl rfl rfl rfl rfl rfl
    (fun _ => okAttempt (artistResponse (.obj [("name", .str "X")])))

/-- Claim C3, counterexample: a successful artist-detail response whose
    artist object is empty — that is, with every one of the three keys
    missing — does NOT yield a record of all-null fields: get_artist
    raises RuntimeError there instead of returning anything. -/
theorem get_artist_empty_artist_payload_raises :
    get_artist (okAttempt (searchResponse [hitWithId (.num 5)]))
        (fun _ => okAttempt (artistResponse (.obj []))) "Radiohead"
      = .error (.runtimeError noPayloadMsg none) ∧
    ∀ v, get_artist (okAttempt (searchResponse [hitWithId (.num 5)]))
        (fun _ => okAttempt (artistResponse (.obj []))) "Radiohead" ≠ .ok v := by
  refine ⟨rfl, fun v h => ?_⟩
  rw [show get_artist (okAttempt (searchResponse [hitWithId (.num 5)]))
        (fun _ => okAttempt (artistResponse (.obj []))) "Radiohead"
      = .error (.runtimeError noPayloadMsg none) from rfl] at h
  exact Except.noConfusion h

/-- Claim C3 (amended): for every successful artist-detail response whose
    nested artist object is a NONEMPTY dict, get_artist returns that
    artist object, and the normalized record built from it — the per-row
    extraction of get_artists — carries name, id and followers_count with
    each missing key independently defaulted to None.  (An empty artist
    object instead makes get_artist raise; see the counterexample.) -/
theorem get_artist_success_defaults_missing_keys (searchOracle : Nat → HttpAttempt)
    (artistOracle : JValue → Nat → HttpAttempt) (t : String)
    (hits first result0 pa0 aid d2 r2 : JValue)
    (kvs : List (String × JValue))
    (hhits : «_search_hits» searchOracle = .ok hits)
    (htruthy : truthy hits = true)
    (hfirst : index0 hits = .ok first)
    (hres : dictGet first "result" (.obj []) = .ok result0)
    (hpa : dictGet (pyOr result0 (.obj [])) "primary_artist" (.obj []) = .ok pa0)
    (hid : dictGet (pyOr pa0 (.obj [])) "id" .null = .ok aid)
    (hnotnull : isNull aid = false)
    (hget2 : («_get» (artistOracle aid) defaultRetries defaultBackoff).result = .ok d2)
    (hresp2 : dictGet d2 "response" (.obj []) = .ok r2)
    (hartist : dictGet r2 "artist" (.obj []) = .ok (.obj kvs))
    (hne : kvs ≠ []) :
    get_artist searchOracle artistOracle t = .ok (.obj kvs) ∧
    rowOf t (get_artist searchOracle artistOracle t)
      = ⟨t, (kvs.lookup "name").getD .null, (kvs.lookup "id").getD .null,
          (kvs.lookup "followers_count").getD .null⟩ := by
  have htr2 : truthy (JValue.obj kvs) = true := by simp [truthy, hne]
  have hmain : get_artist searchOracle artistOracle t = .ok (.obj kvs) := by
    simp [get_artist, hhits, htruthy, hfirst, hres, hpa, hid, hnotnull, hget2,
      hresp2, hartist, htr2, exceptBind_ok, exceptThrow_bind, exceptPure_eq_ok]
  refine ⟨hmain, ?_⟩
  rw [hmain]
  simp [rowOf, dictGet]

theorem get_artist_success_defaults_missing_keys_witness :
    get_artist (okAttempt (searchResponse [hitWithId (.num 5)]))
        (fun _ => okAttempt (artistResponse (.obj [("name", .str "X")]))) "Adele"
      = .ok (.obj [("name", .str "X")]) ∧
    rowOf "Adele" (get_artist (okAttempt (searchResponse [hitWithId (.num 5)]))
        (fun _ => okAttempt (artistResponse (.obj [("name", .str "X")]))) "Adele")
      = ⟨"Adele", .str "X", .null, .null⟩ :=
  get_artist_success_defaults_missing_keys
    (okAttempt (searchResponse [hitWithId (.num 5)]))
    (fun _ => okAttempt (artistResponse (.obj [("name", .str "X")]))) "Adele"
    (.arr [hitWithId (.num 5)]) (hitWithId (.num 5))
    (.obj [("primary_artist", .obj [("id", .num 5)])]) (.obj [("id", .num 5)]) (.num 5)
    (artistResponse (.obj [("name", .str "X")]))
    (.obj [("artist", .obj [("name", .str "X")])])
    [("name", .str "X")]
    rfl rfl rfl rfl rfl rfl rfl rfl rfl rfl (by simp)

end GeniusClient
